import Mathlib

/-!
Verification of the session and cache subsystem of shell_gpt.

The embedding follows `src/sgpt/app.py`.  The modules it imports
(`sgpt.make_prompt`, `sgpt.client.OpenAIClient` with its `chat_cache`,
`sgpt.utils`) are not part of the given sources; the definitions for them
below are modelled from the specification (sections 4.1-4.4) and carry a
doc comment saying so.  Messages are represented by their textual content:
the `role` field the CLI attaches is the constant `"user"` wrapper and the
session store is observed (in `app.py` line 108) to hand back plain strings.

A run of `main` is modelled as a pure function from the CLI inputs, the
externally supplied editor text and remote chunk sequence, and the persisted
state (session store and completion cache) to a `MainResult`: a trace of the
observable effects (reporting output, completion-cache queries and writes,
remote transport calls, chunk echoes, command execution), an outcome
(normal return or raised error), and the final persisted state.
-/

namespace SGpt

/-- The shell-grammar sentinel: `app.py` line 108 tests whether the first
stored message ends with this string. -/
def shellSentinel : String := "###\nCommand:"

/-- The code-grammar sentinel: `app.py` line 109 tests whether the first
stored message ends with this string. -/
def codeSentinel : String := "###\nCode:"

/-- Embedding of Python `str.endswith`: the pattern is a suffix of the
character sequence of the string. -/
def endswith (s pat : String) : Bool := decide (pat.data <:+ s.data)

/-- Embedding of the Python substring test `needle in hay`
(`app.py` line 141). -/
def containsSub (needle hay : String) : Bool := decide (needle.data <:+: hay.data)

/-- Python truthiness of an optional string flag value: `None` and the empty
string are falsy (`app.py` lines 96, 106). -/
def truthy : Option String → Bool
  | none => false
  | some s => decide (s ≠ "")

/-- The persisted session store: an association of chat ids to the ordered
list of stored message contents. -/
abbrev Sessions := List (String × List String)

/-- First binding of an id in the session store. -/
def lookupSession : Sessions → String → Option (List String)
  | [], _ => none
  | (i, ms) :: rest, id => if i = id then some ms else lookupSession rest id

/-- Modelled from the spec: `chat_cache.exists(id)` of the session store
(module `sgpt.client`, not under src/).  Spec 4.2: true iff a session with
at least one stored message exists under `id`. -/
def sessionExists (s : Sessions) (id : String) : Bool :=
  match lookupSession s id with
  | some ms => !ms.isEmpty
  | none => false

/-- Modelled from the spec: `chat_cache.get_messages(id)` of the session
store (module `sgpt.client`, not under src/).  Spec 4.2: the ordered
sequence of stored messages. -/
def get_messages (s : Sessions) (id : String) : List String :=
  (lookupSession s id).getD []

/-- Modelled from the spec: `append(id, content)` of the session store
(module `sgpt.client`, not under src/).  Spec 4.2: adds one message at the
end; creates the session if `id` is new. -/
def appendMessage : Sessions → String → String → Sessions
  | [], id, c => [(id, [c])]
  | (i, ms) :: rest, id, c =>
    if i = id then (i, ms ++ [c]) :: rest else (i, ms) :: appendMessage rest id c

/-- A completion-cache fingerprint: spec 4.3, a deterministic digest of the
ordered outbound messages and the model parameters (modelled as the tuple
itself, which is trivially deterministic and collision-free). -/
structure CacheKey where
  messages : List String
  model : String
  temperature : Int
  top_probability : Int
deriving DecidableEq, Repr

/-- The persisted completion cache: fingerprint-to-completion entries. -/
abbrev Cache := List (CacheKey × String)

/-- First binding of a fingerprint in the completion cache. -/
def lookupCache : Cache → CacheKey → Option String
  | [], _ => none
  | (k, v) :: rest, key => if k = key then some v else lookupCache rest key

/-- The errors `main` can raise: `click.MissingParameter` (`app.py`
line 101) and `click.BadParameter` (`app.py` lines 111, 115) — the latter
is what the spec calls the `ModeConflict` error. -/
inductive MainError where
  | missingParameter : MainError
  | badParameter : String → MainError
deriving DecidableEq, Repr

/-- Observable effects of a run, in order of occurrence. -/
inductive Effect where
  | echoChatIds : Effect
  | echoChatMessages : String → Effect
  | cacheLookup : CacheKey → Effect
  | remoteCall : List String → Effect
  | cacheStore : CacheKey → String → Effect
  | echoChunk : String → Effect
  | echoNewline : Effect
  | runPowershell : String → Effect
  | runShell : String → Effect
deriving DecidableEq, Repr

/-- Completion-cache query or write. -/
def Effect.isCacheOp : Effect → Bool
  | .cacheLookup _ => true
  | .cacheStore _ _ => true
  | _ => false

/-- Remote transport invocation. -/
def Effect.isRemoteCall : Effect → Bool
  | .remoteCall _ => true
  | _ => false

/-- Hand-off of text to a shell executor (`os.system` or PowerShell,
`app.py` lines 142, 144). -/
def Effect.isExec : Effect → Bool
  | .runPowershell _ => true
  | .runShell _ => true
  | _ => false

/-- Modelled from the spec: `make_prompt.initial` (module
`sgpt.make_prompt`, not under src/).  Spec 4.1: wraps the raw prompt
selecting one of three grammars; shell grammar yields content ending in the
shell sentinel, code grammar content ending in the code sentinel, otherwise
the plain prompt.  Spec 4.2 records that the composed initial prompt is
stored verbatim as the session's first message, which is how the mode is
later recovered by suffix inspection. -/
def make_prompt.initial (raw : String) (shell code : Bool) : String :=
  if shell then raw ++ shellSentinel
  else if code then raw ++ codeSentinel
  else raw

/-- Modelled from the spec: `make_prompt.chat_mode` (module
`sgpt.make_prompt`, not under src/).  Spec 4.1: wraps a follow-up turn
using the session's fixed mode rather than any newly supplied flag. -/
def make_prompt.chat_mode (raw : String) (is_shell_chat is_code_chat : Bool) : String :=
  if is_shell_chat then raw ++ shellSentinel
  else if is_code_chat then raw ++ codeSentinel
  else raw

/-- The three session modes of spec 3. -/
inductive Mode where
  | shell | code | plain
deriving DecidableEq, Repr

/-- Embedding of the Python subscript `chat_history[0]` (`app.py`
lines 108-109).  The guard `exists(chat)` guarantees at least one stored
message, so the default is never reached on the paths `main` takes. -/
def firstMsg (history : List String) : String := history.headD ""

/-- Session-mode inference, embedded from `app.py` lines 107-109: the mode
is read off the trailing grammar marker of the first stored message. -/
def inferMode (history : List String) : Mode :=
  if endswith (firstMsg history) shellSentinel then .shell
  else if endswith (firstMsg history) codeSentinel then .code
  else .plain

/-- Result of the validate-and-compose step. -/
inductive ComposeResult where
  | ok : String → ComposeResult
  | error : MainError → ComposeResult
deriving DecidableEq, Repr

/-- Embedding of `app.py` lines 106-123: when a truthy chat id names an
existing session, infer the session mode from the first stored message,
reject a conflicting flag with `BadParameter`, and otherwise compose the
follow-up with the session's mode; in every other case compose an initial
prompt from the supplied flags. -/
def composeFor (sessions : Sessions) (chat : Option String) (collectedPrompt : String)
    (shell code : Bool) : ComposeResult :=
  if truthy chat && sessionExists sessions (chat.getD "") then
    let chat_history := get_messages sessions (chat.getD "")
    let is_shell_chat := endswith (firstMsg chat_history) shellSentinel
    let is_code_chat := endswith (firstMsg chat_history) codeSentinel
    if is_shell_chat && code then
      .error (.badParameter ("Chat id:" ++ chat.getD "" ++
        " was initiated as shell assistant, can be used with --shell only"))
    else if is_code_chat && shell then
      .error (.badParameter ("Chat id:" ++ chat.getD "" ++
        " was initiated as code assistant, can be used with --code only"))
    else
      .ok (make_prompt.chat_mode collectedPrompt is_shell_chat is_code_chat)
  else
    .ok (make_prompt.initial collectedPrompt shell code)

/-- Persisted state threaded through a run: session store and completion
cache. -/
structure MainState where
  sessions : Sessions
  cache : Cache
deriving DecidableEq, Repr

/-- Modelled from the spec: the outbound message list the client builds
(module `sgpt.client`, not under src/).  Spec 4.4 step 3: the persisted
session history (when the chat id names an existing session) with the newly
composed user turn appended at the end. -/
def outboundMessages (sessions : Sessions) (chat_id : Option String)
    (messages : List String) : List String :=
  if truthy chat_id && sessionExists sessions (chat_id.getD "") then
    get_messages sessions (chat_id.getD "") ++ messages
  else messages

/-- Modelled from the spec: the session commit after a completed exchange
(module `sgpt.client`, not under src/).  Spec 4.4 steps 4-5: when a chat id
was supplied, the user turn and the assistant completion are appended to the
session (creating it if new); otherwise nothing is persisted. -/
def commitExchange (st : MainState) (chat_id : Option String)
    (userContent value : String) : MainState :=
  if truthy chat_id then
    let withUser := appendMessage st.sessions (chat_id.getD "") userContent
    { st with sessions := appendMessage withUser (chat_id.getD "") value }
  else st

/-- Modelled from the spec: `OpenAIClient.get_completion` (module
`sgpt.client`, not under src/).  Spec 4.4: build the outbound list
(history plus new turn); with caching enabled, fingerprint it together with
the model parameters and query the cache — on a hit return the cached value
as a one-shot sequence with no remote call; on a miss (or with caching
disabled, in which case the cache is neither queried nor written) invoke the
remote transport, then write the accumulated text to the cache (if enabled)
and commit the exchange to the session.  Returns the chunk sequence, the
effect trace, and the updated persisted state. -/
def OpenAIClient.get_completion (st : MainState) (remoteChunks : List String)
    (messages : List String) (model : String) (temperature top_probability : Int)
    (caching : Bool) (chat_id : Option String) :
    List String × List Effect × MainState :=
  let msgs := outboundMessages st.sessions chat_id messages
  let key : CacheKey := ⟨msgs, model, temperature, top_probability⟩
  let userContent := messages.getLastD ""
  if caching then
    match lookupCache st.cache key with
    | some value =>
      ([value], [Effect.cacheLookup key], commitExchange st chat_id userContent value)
    | none =>
      let value := String.join remoteChunks
      let st1 : MainState := { st with cache := st.cache ++ [(key, value)] }
      (remoteChunks,
        [Effect.cacheLookup key, Effect.remoteCall msgs, Effect.cacheStore key value],
        commitExchange st1 chat_id userContent value)
  else
    let value := String.join remoteChunks
    (remoteChunks, [Effect.remoteCall msgs], commitExchange st chat_id userContent value)

/-- Embedding of `get_completion` (`app.py` lines 30-47): fixes the model
to `"gpt-3.5-turbo"` and forwards everything else to the client.
(Credential loading is external glue and carries no information the core
uses.) -/
def get_completion (st : MainState) (remoteChunks : List String)
    (messages : List String) (temperature top_p : Int) (caching : Bool)
    (chat : Option String) : List String × List Effect × MainState :=
  OpenAIClient.get_completion st remoteChunks messages "gpt-3.5-turbo"
    temperature top_p caching chat

/-- One iteration of the streaming loop (`app.py` lines 134-136): echo the
chunk, then append it to the accumulator. -/
def streamStep (p : List Effect × String) (word : String) : List Effect × String :=
  (p.1 ++ [Effect.echoChunk word], p.2 ++ word)

/-- Embedding of the streaming loop of `app.py` lines 133-136: left fold of
`streamStep` over the chunk sequence, starting from no output and the empty
accumulator. -/
def streamLoop (completion : List String) : List Effect × String :=
  completion.foldl streamStep ([], "")

/-- Outcome of a run: normal return or raised error. -/
inductive Outcome where
  | ok : Outcome
  | error : MainError → Outcome
deriving DecidableEq, Repr

/-- Everything observable about one run of `main`. -/
structure MainResult where
  trace : List Effect
  result : Outcome
  sessions : Sessions
  cache : Cache
deriving DecidableEq, Repr

/-- Embedding of the execution tail of `main` (`app.py` lines 139-144): the
accumulated completion is handed to a shell executor only when the code flag
is unset and the shell flag is set and the demo flag is unset; PowerShell
when the composed prompt mentions PowerShell commands, `os.system`
otherwise. -/
def execFor (code shell demo : Bool) (composed value : String) : List Effect :=
  if !code && shell then
    if !demo then
      if containsSub "only PowerShell commands" composed then
        [Effect.runPowershell value]
      else [Effect.runShell value]
    else []
  else []

/-- Embedding of `main` (`app.py` lines 78-144).  Externally produced
inputs are parameters: `editorText` is what `get_edited_prompt()` returns,
`remoteChunks` is the chunk sequence the remote transport yields on this
request, `st` is the persisted state. -/
def main (prompt : List String) (temperature top_probability : Int)
    (chat show_chat : Option String) (list_chat shell code demo editor no_cache : Bool)
    (editorText : String) (remoteChunks : List String) (st : MainState) : MainResult :=
  let collectedPrompt := String.intercalate " " prompt
  if list_chat then
    { trace := [Effect.echoChatIds], result := .ok,
      sessions := st.sessions, cache := st.cache }
  else if truthy show_chat then
    { trace := [Effect.echoChatMessages (show_chat.getD "")], result := .ok,
      sessions := st.sessions, cache := st.cache }
  else if decide (collectedPrompt = "") && !editor then
    { trace := [], result := .error .missingParameter,
      sessions := st.sessions, cache := st.cache }
  else
    let collectedPrompt := if editor then editorText else collectedPrompt
    match composeFor st.sessions chat collectedPrompt shell code with
    | .error e =>
      { trace := [], result := .error e, sessions := st.sessions, cache := st.cache }
    | .ok composed =>
      let r := get_completion st remoteChunks [composed] temperature top_probability
        (!no_cache) chat
      let s := streamLoop r.1
      { trace := r.2.1 ++ s.1 ++ [Effect.echoNewline] ++ execFor code shell demo composed s.2,
        result := .ok, sessions := r.2.2.sessions, cache := r.2.2.cache }

/-- Whether the validate-and-compose step raised. -/
def ComposeResult.isError : ComposeResult → Bool
  | .ok _ => false
  | .error _ => true

/-! ### Helper lemmas -/

theorem sentinel_suffix_disjoint (s : String) :
    ¬(endswith s shellSentinel = true ∧ endswith s codeSentinel = true) := by
  rintro ⟨h1, h2⟩
  have hs : shellSentinel.data <:+ s.data := of_decide_eq_true h1
  have hc : codeSentinel.data <:+ s.data := of_decide_eq_true h2
  rcases List.suffix_or_suffix_of_suffix hs hc with h | h
  · exact absurd h (by decide)
  · exact absurd h (by decide)

theorem endswith_code_of_shell (s : String) (h : endswith s shellSentinel = true) :
    endswith s codeSentinel = false := by
  cases hc : endswith s codeSentinel with
  | false => rfl
  | true => exact absurd ⟨h, hc⟩ (sentinel_suffix_disjoint s)

theorem endswith_shell_of_code (s : String) (h : endswith s codeSentinel = true) :
    endswith s shellSentinel = false := by
  cases hs : endswith s shellSentinel with
  | false => rfl
  | true => exact absurd ⟨hs, h⟩ (sentinel_suffix_disjoint s)

theorem streamLoop_go (cs : List String) (t : List Effect) (a : String) :
    cs.foldl streamStep (t, a) = (t ++ cs.map Effect.echoChunk, a ++ String.join cs) := by
  induction cs generalizing t a with
  | nil => simp [String.join]
  | cons c cs ih =>
    simp only [List.foldl_cons, streamStep, ih, List.map_cons]
    refine congrArg₂ Prod.mk (by simp) ?_
    have : String.join (c :: cs) = c ++ String.join cs := by
      have h1 : String.join (c :: cs) = (c :: cs).foldl (fun r s => r ++ s) "" := rfl
      have h2 : ∀ (l : List String) (b : String),
          l.foldl (fun r s => r ++ s) b = b ++ String.join l := by
        intro l
        induction l with
        | nil => intro b; simp [String.join]
        | cons x xs ihx =>
          intro b
          have hx : String.join (x :: xs) = (x :: xs).foldl (fun r s => r ++ s) "" := rfl
          simp only [List.foldl_cons, ihx, hx]
          simp [String.append_assoc]
      rw [h1, List.foldl_cons, h2]
      simp
    rw [this, String.append_assoc]

/-! ### Claim theorems -/

/-- C3: a session's mode is inferred solely from the trailing grammar marker
of the first stored message — shell iff it ends with the shell sentinel,
code iff it ends with the code sentinel, plain otherwise — and the inference
is unchanged by appending any follow-up messages. -/
theorem infer_mode_from_first_message (history more : List String) :
    (inferMode history = .shell ↔
      endswith (firstMsg history) shellSentinel = true) ∧
    (inferMode history = .code ↔
      endswith (firstMsg history) codeSentinel = true) ∧
    (inferMode history = .plain ↔
      (endswith (firstMsg history) shellSentinel = false ∧
       endswith (firstMsg history) codeSentinel = false)) ∧
    (history ≠ [] → inferMode (history ++ more) = inferMode history) := by
  have hhead : history ≠ [] → firstMsg (history ++ more) = firstMsg history := by
    intro h
    cases history with
    | nil => exact absurd rfl h
    | cons a t => rfl
  refine ⟨?_, ?_, ?_, fun h => by simp only [inferMode, hhead h]⟩ <;>
  · cases hs : endswith (firstMsg history) shellSentinel with
    | true =>
      have hc := endswith_code_of_shell _ hs
      simp [inferMode, hs, hc]
    | false =>
      cases hc : endswith (firstMsg history) codeSentinel <;>
        simp [inferMode, hs, hc]

/-- C3 witness: on the concrete shell-mode session `["q###\nCommand:"]`, the
inference is `shell` and stays `shell` after appending two follow-ups. -/
theorem infer_mode_from_first_message_witness :
    inferMode ["q###\nCommand:"] = .shell ∧
    inferMode (["q###\nCommand:"] ++ ["a", "b"]) = inferMode ["q###\nCommand:"] :=
  ⟨by decide,
   (infer_mode_from_first_message ["q###\nCommand:"] ["a", "b"]).2.2.2 (by decide)⟩

/-- C7: the accumulated completion equals the concatenation of the chunks in
order, the echoed output is exactly the chunk sequence in order, and after
any prefix of the stream the echoed output is exactly that prefix — chunks
are forwarded as produced, before the rest of the response exists. -/
theorem stream_accumulates_and_forwards (chunks : List String) :
    (streamLoop chunks).2 = String.join chunks ∧
    (streamLoop chunks).1 = chunks.map Effect.echoChunk ∧
    ∀ k : Nat, (streamLoop (chunks.take k)).1 =
      (chunks.map Effect.echoChunk).take k := by
  refine ⟨?_, ?_, fun k => ?_⟩
  · rw [streamLoop, streamLoop_go]; simp
  · rw [streamLoop, streamLoop_go]; simp
  · rw [streamLoop, streamLoop_go]; simp [List.map_take]

/-- C9: with an empty collected prompt, the editor flag unset and neither
reporting path taken, the run fails with `MissingParameter` and performs no
effect at all: empty trace, unchanged session store and cache. -/
theorem missing_prompt_rejected (prompt : List String)
    (temperature top_probability : Int) (chat show_chat : Option String)
    (shell code demo no_cache : Bool) (editorText : String)
    (remoteChunks : List String) (st : MainState)
    (hshow : truthy show_chat = false)
    (hempty : String.intercalate " " prompt = "") :
    main prompt temperature top_probability chat show_chat false shell code demo
      false no_cache editorText remoteChunks st =
    { trace := [], result := .error .missingParameter,
      sessions := st.sessions, cache := st.cache } := by
  simp [main, hshow, hempty]

/-- C9 witness: the empty prompt list with no flags fails with
`MissingParameter` and an empty trace. -/
theorem missing_prompt_rejected_witness :
    main [] 1 1 none none false false false false false false "" [] ⟨[], []⟩ =
    { trace := [], result := .error .missingParameter,
      sessions := [], cache := [] } :=
  missing_prompt_rejected [] 1 1 none none false false false false "" [] ⟨[], []⟩
    (by decide) (by decide)

/-- C2 counterexample: session `"abc"` was established in plain mode (its
first stored message `"hello"` ends with neither sentinel); a follow-up with
the shell flag set — a grammar that conflicts with the session's plain
mode — does not fail: the run returns normally. -/
theorem plain_session_shell_flag_no_error :
    (main ["hi"] 1 1 (some "abc") none false true false false false false ""
      ["ok"] ⟨[("abc", ["hello"])], []⟩).result = .ok := by decide

/-- C2 amended: composing a follow-up fails (with the `BadParameter` error
the spec calls `ModeConflict`) exactly when the session was established in
shell mode and the code flag is set, or established in code mode and the
shell flag is set; in particular a session established in plain mode accepts
the shell or code flag without error. -/
theorem followup_conflict_characterization (sessions : Sessions)
    (chat : Option String) (collected : String) (shell code : Bool)
    (hchat : truthy chat = true)
    (hex : sessionExists sessions (chat.getD "") = true) :
    (composeFor sessions chat collected shell code).isError =
      ((endswith (firstMsg (get_messages sessions (chat.getD ""))) shellSentinel
          && code) ||
       (endswith (firstMsg (get_messages sessions (chat.getD ""))) codeSentinel
          && shell)) := by
  cases hs : endswith (firstMsg (get_messages sessions (chat.getD ""))) shellSentinel with
  | true =>
    have hc := endswith_code_of_shell _ hs
    cases code <;> simp [composeFor, hchat, hex, hs, hc, ComposeResult.isError]
  | false =>
    cases hc : endswith (firstMsg (get_messages sessions (chat.getD ""))) codeSentinel <;>
      cases code <;> cases shell <;>
        simp [composeFor, hchat, hex, hs, hc, ComposeResult.isError]

/-- C2 amended witness: a plain-mode session with the shell flag composes
without error, and a shell-mode session with the code flag errors. -/
theorem followup_conflict_characterization_witness :
    (composeFor [("abc", ["hello"])] (some "abc") "hi" true false).isError =
      ((endswith (firstMsg (get_messages [("abc", ["hello"])] ((some "abc").getD "")))
          shellSentinel && false) ||
       (endswith (firstMsg (get_messages [("abc", ["hello"])] ((some "abc").getD "")))
          codeSentinel && true)) :=
  followup_conflict_characterization [("abc", ["hello"])] (some "abc") "hi"
    true false (by decide) (by decide)

/-- C1: against a session whose first stored message carries the shell
sentinel, a follow-up with the code flag fails with the `BadParameter` the
spec calls `ModeConflict`, with an empty effect trace (so no network call,
no completion-cache query, no write) and the persisted state unchanged;
symmetrically for a code-mode session with the shell flag. -/
theorem mode_conflict_rejected (prompt : List String)
    (temperature top_probability : Int) (id : String)
    (shell code demo editor no_cache : Bool) (editorText : String)
    (remoteChunks : List String) (st : MainState)
    (hid : id ≠ "")
    (hex : sessionExists st.sessions id = true)
    (hprompt : (decide (String.intercalate " " prompt = "") && !editor) = false) :
    (endswith (firstMsg (get_messages st.sessions id)) shellSentinel = true →
      code = true →
      main prompt temperature top_probability (some id) none false shell code demo
        editor no_cache editorText remoteChunks st =
      { trace := [], result := .error (.badParameter ("Chat id:" ++ id ++
          " was initiated as shell assistant, can be used with --shell only")),
        sessions := st.sessions, cache := st.cache }) ∧
    (endswith (firstMsg (get_messages st.sessions id)) codeSentinel = true →
      shell = true →
      main prompt temperature top_probability (some id) none false shell code demo
        editor no_cache editorText remoteChunks st =
      { trace := [], result := .error (.badParameter ("Chat id:" ++ id ++
          " was initiated as code assistant, can be used with --code only")),
        sessions := st.sessions, cache := st.cache }) := by
  constructor
  · intro hm hc
    simp [main, hprompt, composeFor, truthy, hid, hex, hm, hc]
  · intro hm hsh
    have hs0 := endswith_shell_of_code _ hm
    simp [main, hprompt, composeFor, truthy, hid, hex, hm, hsh, hs0]

/-- C1 witness: the shell-mode session `"abc"` with a code-flag follow-up is
rejected with the shell-assistant message, an empty trace and unchanged
state. -/
theorem mode_conflict_rejected_witness :
    main ["hi"] 1 1 (some "abc") none false false true false false false "" []
      ⟨[("abc", ["q###\nCommand:"])], []⟩ =
    { trace := [], result := .error (.badParameter ("Chat id:" ++ "abc" ++
        " was initiated as shell assistant, can be used with --shell only")),
      sessions := [("abc", ["q###\nCommand:"])], cache := [] } :=
  (mode_conflict_rejected ["hi"] 1 1 "abc" false true false false false "" []
    ⟨[("abc", ["q###\nCommand:"])], []⟩ (by decide) (by decide) (by decide)).1
    (by decide) rfl

/-- C5: the composed follow-up content depends only on the raw prompt and
the session's inferred mode: two flag assignments that both pass validation
give the same composition result. -/
theorem followup_composition_ignores_flags (sessions : Sessions)
    (chat : Option String) (collected : String)
    (shell1 code1 shell2 code2 : Bool)
    (hchat : truthy chat = true)
    (hex : sessionExists sessions (chat.getD "") = true)
    (h1 : (endswith (firstMsg (get_messages sessions (chat.getD "")))
      shellSentinel && code1) = false)
    (h2 : (endswith (firstMsg (get_messages sessions (chat.getD "")))
      codeSentinel && shell1) = false)
    (h3 : (endswith (firstMsg (get_messages sessions (chat.getD "")))
      shellSentinel && code2) = false)
    (h4 : (endswith (firstMsg (get_messages sessions (chat.getD "")))
      codeSentinel && shell2) = false) :
    composeFor sessions chat collected shell1 code1 =
      composeFor sessions chat collected shell2 code2 := by
  simp [composeFor, hchat, hex, h1, h2, h3, h4]

/-- C5 witness: on the shell-mode session `"abc"`, supplying the shell flag
and supplying no flag compose the identical follow-up. -/
theorem followup_composition_ignores_flags_witness :
    composeFor [("abc", ["q###\nCommand:"])] (some "abc") "hi" true false =
      composeFor [("abc", ["q###\nCommand:"])] (some "abc") "hi" false false :=
  followup_composition_ignores_flags [("abc", ["q###\nCommand:"])] (some "abc")
    "hi" true false false false (by decide) (by decide) (by decide) (by decide)
    (by decide) (by decide)

/-- C6: the prompt is composed as a follow-up in the session's mode exactly
when a truthy chat id is supplied and a session exists under it (and the
flags pass validation); in every other case it is composed as an initial
prompt from the supplied shell/code flags. -/
theorem followup_iff_existing_session (sessions : Sessions)
    (chat : Option String) (collected : String) (shell code : Bool) :
    ((truthy chat && sessionExists sessions (chat.getD "")) = false →
      composeFor sessions chat collected shell code =
        .ok (make_prompt.initial collected shell code)) ∧
    ((truthy chat && sessionExists sessions (chat.getD "")) = true →
      (endswith (firstMsg (get_messages sessions (chat.getD "")))
        shellSentinel && code) = false →
      (endswith (firstMsg (get_messages sessions (chat.getD "")))
        codeSentinel && shell) = false →
      composeFor sessions chat collected shell code =
        .ok (make_prompt.chat_mode collected
          (endswith (firstMsg (get_messages sessions (chat.getD ""))) shellSentinel)
          (endswith (firstMsg (get_messages sessions (chat.getD ""))) codeSentinel))) := by
  constructor
  · intro h
    simp [composeFor, h]
  · intro h h1 h2
    simp [composeFor, h, h1, h2]

/-- C6 witness: with no existing session under `"abc"` the composition is
initial; with an existing plain session under `"abc"` it is the follow-up
composition in the session's mode. -/
theorem followup_iff_existing_session_witness :
    composeFor [] (some "abc") "hi" true false =
      .ok (make_prompt.initial "hi" true false) ∧
    composeFor [("abc", ["hello"])] (some "abc") "hi" false false =
      .ok (make_prompt.chat_mode "hi"
        (endswith (firstMsg (get_messages [("abc", ["hello"])]
          ((some "abc").getD ""))) shellSentinel)
        (endswith (firstMsg (get_messages [("abc", ["hello"])]
          ((some "abc").getD ""))) codeSentinel)) :=
  ⟨(followup_iff_existing_session [] (some "abc") "hi" true false).1 (by decide),
   (followup_iff_existing_session [("abc", ["hello"])] (some "abc") "hi"
      false false).2 (by decide) (by decide) (by decide)⟩

theorem streamLoop_trace_eq (cs : List String) :
    (streamLoop cs).1 = cs.map Effect.echoChunk := by
  rw [streamLoop, streamLoop_go]
  simp

theorem client_trace_caching_cons (st : MainState) (chunks msgs : List String)
    (model : String) (t p : Int) (chat_id : Option String) :
    ∃ rest, (OpenAIClient.get_completion st chunks msgs model t p true chat_id).2.1 =
      Effect.cacheLookup ⟨outboundMessages st.sessions chat_id msgs, model, t, p⟩ :: rest := by
  rcases hlu : lookupCache st.cache ⟨outboundMessages st.sessions chat_id msgs, model, t, p⟩
    with _ | v
  · refine ⟨[Effect.remoteCall (outboundMessages st.sessions chat_id msgs),
      Effect.cacheStore ⟨outboundMessages st.sessions chat_id msgs, model, t, p⟩
        (String.join chunks)], ?_⟩
    simp [OpenAIClient.get_completion, hlu]
  · refine ⟨[], ?_⟩
    simp [OpenAIClient.get_completion, hlu]

theorem client_no_caching (st : MainState) (chunks msgs : List String)
    (model : String) (t p : Int) (chat_id : Option String) :
    (OpenAIClient.get_completion st chunks msgs model t p false chat_id).2.1 =
      [Effect.remoteCall (outboundMessages st.sessions chat_id msgs)] ∧
    (OpenAIClient.get_completion st chunks msgs model t p false chat_id).2.2.cache =
      st.cache ∧
    (OpenAIClient.get_completion st chunks msgs model t p false chat_id).1 =
      chunks := by
  have hcommit : ∀ (s : MainState) c u v, (commitExchange s c u v).cache = s.cache := by
    intro s c u v
    simp only [commitExchange]
    split <;> rfl
  exact ⟨by simp [OpenAIClient.get_completion], by simp [OpenAIClient.get_completion, hcommit],
    by simp [OpenAIClient.get_completion]⟩

theorem client_trace_no_exec (st : MainState) (chunks msgs : List String)
    (model : String) (t p : Int) (caching : Bool) (chat_id : Option String) :
    ((OpenAIClient.get_completion st chunks msgs model t p caching chat_id).2.1.all
      (fun e => !e.isExec)) = true := by
  cases caching with
  | false => simp [OpenAIClient.get_completion, Effect.isExec]
  | true =>
    rcases hlu : lookupCache st.cache ⟨outboundMessages st.sessions chat_id msgs, model, t, p⟩
      with _ | v <;>
      simp [OpenAIClient.get_completion, hlu, Effect.isExec]

/-- C4: the message list that is fingerprinted and the one sent to the
remote transport are both the persisted session history with the newly
composed user turn appended at the end: with caching on, the first recorded
effect is the cache query at that exact fingerprint; with caching off, it is
the remote call on that exact list. -/
theorem outbound_is_history_plus_new_turn (prompt : List String)
    (temperature top_probability : Int) (id : String) (shell code demo : Bool)
    (editorText : String) (remoteChunks : List String) (st : MainState)
    (composed : String)
    (hid : id ≠ "")
    (hex : sessionExists st.sessions id = true)
    (hprompt : decide (String.intercalate " " prompt = "") = false)
    (hcomp : composeFor st.sessions (some id) (String.intercalate " " prompt)
      shell code = .ok composed) :
    (main prompt temperature top_probability (some id) none false shell code demo
        false false editorText remoteChunks st).trace.head? =
      some (.cacheLookup ⟨get_messages st.sessions id ++ [composed],
        "gpt-3.5-turbo", temperature, top_probability⟩) ∧
    (main prompt temperature top_probability (some id) none false shell code demo
        false true editorText remoteChunks st).trace.head? =
      some (.remoteCall (get_messages st.sessions id ++ [composed])) := by
  have hout : outboundMessages st.sessions (some id) [composed] =
      get_messages st.sessions id ++ [composed] := by
    simp [outboundMessages, truthy, hid, hex]
  constructor
  · obtain ⟨rest, hr⟩ := client_trace_caching_cons st remoteChunks [composed]
      "gpt-3.5-turbo" temperature top_probability (some id)
    rw [hout] at hr
    simp [main, truthy, hprompt, hcomp, get_completion, hr]
  · have h2 := client_no_caching st remoteChunks [composed] "gpt-3.5-turbo"
      temperature top_probability (some id)
    rw [hout] at h2
    simp [main, truthy, hprompt, hcomp, get_completion, h2.1]

/-- C4 witness: on the shell session `"abc"` with follow-up `"hi"`, the
fingerprinted list and the remotely sent list are the stored history with
the composed turn appended. -/
theorem outbound_is_history_plus_new_turn_witness :
    (main ["hi"] 1 1 (some "abc") none false false false false false false "" []
        ⟨[("abc", ["q###\nCommand:"])], []⟩).trace.head? =
      some (.cacheLookup ⟨get_messages [("abc", ["q###\nCommand:"])] "abc" ++
        ["hi###\nCommand:"], "gpt-3.5-turbo", 1, 1⟩) :=
  (outbound_is_history_plus_new_turn ["hi"] 1 1 "abc" false false false "" []
    ⟨[("abc", ["q###\nCommand:"])], []⟩ "hi###\nCommand:" (by decide) (by decide)
    (by decide) (by decide)).1

/-- C8: with the no-cache flag set, the run records no completion-cache
query and no write, leaves the cache unchanged, and invokes the remote
transport; and two identical consecutive such requests (here session-free,
so the runs are identical) both invoke the remote transport. -/
theorem no_cache_disables_cache (prompt : List String)
    (temperature top_probability : Int) (chat : Option String)
    (shell code demo : Bool) (editorText : String)
    (remoteChunks : List String) (st : MainState) (composed : String)
    (hprompt : decide (String.intercalate " " prompt = "") = false)
    (hcomp : composeFor st.sessions chat (String.intercalate " " prompt)
      shell code = .ok composed) :
    ((main prompt temperature top_probability chat none false shell code demo
        false true editorText remoteChunks st).trace.all
      (fun e => !e.isCacheOp)) = true ∧
    (main prompt temperature top_probability chat none false shell code demo
        false true editorText remoteChunks st).cache = st.cache ∧
    ((main prompt temperature top_probability chat none false shell code demo
        false true editorText remoteChunks st).trace.any Effect.isRemoteCall) = true ∧
    ((main prompt temperature top_probability none none false shell code demo
        false true editorText remoteChunks st).trace.any Effect.isRemoteCall) = true ∧
    ((main prompt temperature top_probability none none false shell code demo
        false true editorText remoteChunks
        ⟨(main prompt temperature top_probability none none false shell code demo
            false true editorText remoteChunks st).sessions,
          (main prompt temperature top_probability none none false shell code demo
            false true editorText remoteChunks st).cache⟩).trace.any
      Effect.isRemoteCall) = true := by
  have hcl := client_no_caching st remoteChunks [composed] "gpt-3.5-turbo"
    temperature top_probability chat
  have hcomp0 : ∀ st0 : MainState, composeFor st0.sessions none
      (String.intercalate " " prompt) shell code =
      .ok (make_prompt.initial (String.intercalate " " prompt) shell code) := by
    intro st0
    simp [composeFor, truthy]
  refine ⟨?_, ?_, ?_, ?_, ?_⟩
  · simp [main, truthy, hprompt, hcomp, get_completion, hcl.1, hcl.2.2,
      streamLoop_trace_eq, Effect.isCacheOp, execFor]
    split <;> simp [Effect.isCacheOp] <;> (intro x _ _ _ hx; subst hx; rfl)
  · simp [main, truthy, hprompt, hcomp, get_completion, hcl.2.1]
  · simp [main, truthy, hprompt, hcomp, get_completion, hcl.1, Effect.isRemoteCall]
  · simp [main, truthy, hprompt, hcomp0, get_completion, OpenAIClient.get_completion,
      commitExchange, Effect.isRemoteCall]
  · simp [main, truthy, hprompt, hcomp0, get_completion, OpenAIClient.get_completion,
      commitExchange, Effect.isRemoteCall]

/-- C8 witness: two identical no-cache requests for `"hi"` both call the
remote transport; the first consults and writes nothing. -/
theorem no_cache_disables_cache_witness :
    ((main ["hi"] 1 1 none none false false false false false true "" ["ok"]
        ⟨[], []⟩).trace.all (fun e => !e.isCacheOp)) = true ∧
    ((main ["hi"] 1 1 none none false false false false false true "" ["ok"]
        ⟨[], []⟩).trace.any Effect.isRemoteCall) = true :=
  ⟨(no_cache_disables_cache ["hi"] 1 1 none false false false "" ["ok"] ⟨[], []⟩
      "hi" (by decide) (by decide)).1,
   (no_cache_disables_cache ["hi"] 1 1 none false false false "" ["ok"] ⟨[], []⟩
      "hi" (by decide) (by decide)).2.2.1⟩

/-- C10: the completion text reaches a shell executor only when the shell
flag is set, the code flag is not, and the demo flag is not: whenever the
code flag is set, or the shell flag is unset, or the demo flag is set, no
run of `main` records an execution effect. -/
theorem exec_only_shell_not_code_not_demo (prompt : List String)
    (temperature top_probability : Int) (chat show_chat : Option String)
    (list_chat shell code demo editor no_cache : Bool) (editorText : String)
    (remoteChunks : List String) (st : MainState)
    (h : code = true ∨ shell = false ∨ demo = true) :
    ((main prompt temperature top_probability chat show_chat list_chat shell code
        demo editor no_cache editorText remoteChunks st).trace.all
      (fun e => !e.isExec)) = true := by
  have hexec : ∀ c v, (execFor code shell demo c v).all (fun e => !e.isExec) = true := by
    intro c v
    rcases h with h | h | h <;> simp [execFor, h]
  cases list_chat with
  | true => simp [main, Effect.isExec]
  | false =>
    by_cases hs : truthy show_chat = true
    · simp [main, hs, Effect.isExec]
    · by_cases hmp : (decide (String.intercalate " " prompt = "") && !editor) = true
      · simp [main, hs, hmp]
      · cases hc : composeFor st.sessions chat
            (if editor = true then editorText else String.intercalate " " prompt)
            shell code with
        | error e => simp [main, hs, hmp, hc]
        | ok composed =>
          have h1 := client_trace_no_exec st remoteChunks [composed] "gpt-3.5-turbo"
            temperature top_probability (!no_cache) chat
          simp [main, hs, hmp, hc, get_completion, h1, streamLoop_trace_eq, hexec,
            Effect.isExec, List.all_append]
          refine ⟨fun x hx => ?_, fun x hx => ?_⟩
          · have hx1 := List.all_eq_true.mp h1 x hx
            revert hx1
            cases x <;> simp [Effect.isExec]
          · have hx2 := List.all_eq_true.mp (hexec _ _) x hx
            revert hx2
            cases x <;> simp [Effect.isExec]

/-- C10 witness: with the demo flag set (shell set, code unset), the run
records no execution effect. -/
theorem exec_only_shell_not_code_not_demo_witness :
    ((main ["hi"] 1 1 none none false true false true false false "" ["ok"]
        ⟨[], []⟩).trace.all (fun e => !e.isExec)) = true :=
  exec_only_shell_not_code_not_demo ["hi"] 1 1 none none false true false true
    false false "" ["ok"] ⟨[], []⟩ (Or.inr (Or.inr rfl))

end SGpt
